import Mathlib

/-!
Verification development for the F1 historical-data ETL pipeline
(`backend/scripts/etl_historical.py` together with the table schema in
`backend/models/database.py`).

The pipeline is embedded shallowly:

* a pandas cell is a `PCell` (NaN/NaT, Python `None`, int, float, string,
  bool, timedelta, datetime); floats are modelled as rationals,
* the relational store is a `Store` of per-table row lists; SQLAlchemy's
  autoincrement ids are assigned as `length + 1` at insertion,
* Python code that can raise is modelled in `Except Unit`; a sub-loader
  batch is built in `Except` and committed (list append) on success or
  rolled back (store returned unchanged) on failure, mirroring the
  `try/commit/except/rollback` blocks of the source,
* `repr`-level details that the pipeline never branches on (the exact
  `str()` rendering of non-string cells, Unicode lower-casing beyond
  ASCII, fractional numeric string literals) are abstracted.
-/

/-- A pandas/Python scalar cell as the ETL code observes it.
`nan` covers float NaN and pandas NaT (both `pd.isna`-true and truthy);
`pynone` is Python `None` (`pd.isna`-true and falsy), the value a missing
column yields under `.get`. `td` is a timedelta carrying its
`total_seconds()` value; `dt` is a datetime carrying its `.date()` value
as an abstract day number. -/
inductive PCell where
  | nan : PCell
  | pynone : PCell
  | int (n : Int) : PCell
  | float (q : Rat) : PCell
  | str (s : String) : PCell
  | bool (b : Bool) : PCell
  | td (q : Rat) : PCell
  | dt (n : Int) : PCell
deriving DecidableEq, Repr

/-- `pd.isna` on a scalar: true exactly for NaN/NaT and `None`. -/
def isna : PCell → Bool
  | .nan => true
  | .pynone => true
  | _ => false

/-- Python truthiness (`bool(x)`): NaN is truthy, `None` falsy, empty
string/zero falsy. -/
def pyTruthy : PCell → Bool
  | .nan => true
  | .pynone => false
  | .int n => n != 0
  | .float q => q != 0
  | .str s => s != ""
  | .bool b => b
  | .td q => q != 0
  | .dt _ => true

/-- ASCII lower-casing, the fragment of `str.lower()` the pipeline's
event/team names exercise. -/
def pyLower (s : String) : String :=
  String.mk (s.data.map Char.toLower)

/-- Single-character `str.replace(c, r)`: a character-wise map, which is
what Python's replace amounts to for one-character patterns. -/
def replaceChar (c r : Char) (s : String) : String :=
  String.mk (s.data.map (fun x => if x = c then r else x))

/-- Single-character deleting replace `str.replace(c, "")`. -/
def dropChar (c : Char) (s : String) : String :=
  String.mk (s.data.filter (fun x => x ≠ c))

/-- The apostrophe character (code point 39). -/
def apostrophe : Char := Char.ofNat 39

/-- ASCII whitespace, the characters Python `str.strip()` removes in the
data this pipeline sees. -/
def isSpaceChar (c : Char) : Bool :=
  c = ' ' ∨ c = '\t' ∨ c = '\n' ∨ c = '\r'

/-- Python `str.strip()`: drop leading and trailing whitespace. -/
def pyStrip (s : String) : String :=
  String.mk (((s.data.dropWhile isSpaceChar).reverse.dropWhile isSpaceChar).reverse)

/-- Decimal digits accumulator: `none` on the first non-digit. -/
def parseNatAux : List Char → Nat → Option Nat
  | [], acc => some acc
  | c :: cs, acc =>
    if c.isDigit then parseNatAux cs (acc * 10 + (c.toNat - 48)) else none

/-- The integer-literal fragment of Python `int(str)`: an optional sign
followed by at least one decimal digit. -/
def pyParseInt (s : String) : Option Int :=
  match s.data with
  | [] => none
  | '-' :: cs =>
    match cs with
    | [] => none
    | _ => (parseNatAux cs 0).map (fun n => -(n : Int))
  | '+' :: cs =>
    match cs with
    | [] => none
    | _ => (parseNatAux cs 0).map (fun n => (n : Int))
  | cs => (parseNatAux cs 0).map (fun n => (n : Int))

/-- Python `str(x)`. Only the string case is ever inspected by the
pipeline's logic; renderings of the remaining cases are abstracted. -/
def pyStr : PCell → String
  | .nan => "nan"
  | .pynone => "None"
  | .int n => toString n
  | .float q => toString q
  | .str s => s
  | .bool b => if b then "True" else "False"
  | .td _ => "timedelta"
  | .dt _ => "datetime"

/-- Python `int(x)`: succeeds on ints, floats (truncation toward zero),
integer-form numeric strings (whitespace stripped) and bools; raises
(`ValueError`/`TypeError`) otherwise. Fractional string literals are not
modelled. -/
def pyInt : PCell → Except Unit Int
  | .int n => .ok n
  | .float q => .ok (q.num.tdiv (q.den : Int))
  | .str s =>
      match pyParseInt (pyStrip s) with
      | some n => .ok n
      | none => .error ()
  | .bool b => .ok (if b then 1 else 0)
  | _ => .error ()

/-- Python `float(x)`: succeeds on ints, floats, integer-form numeric
strings and bools; raises otherwise (in particular `float(timedelta)` is
a `TypeError`). -/
def pyFloat : PCell → Except Unit Rat
  | .int n => .ok (n : Rat)
  | .float q => .ok q
  | .str s =>
      match pyParseInt (pyStrip s) with
      | some n => .ok (n : Rat)
      | none => .error ()
  | .bool b => .ok (if b then 1 else 0)
  | _ => .error ()

/-- Python `bool(x)`; total, never raises. -/
def pyBool (c : PCell) : Bool := pyTruthy c

/-- `row.get(key)` with no default: a missing column yields Python
`None`. -/
def getCell : Option PCell → PCell
  | none => .pynone
  | some c => c

/-- `row.get(key, default)`. -/
def getCellD (c? : Option PCell) (d : PCell) : PCell :=
  c?.getD d

/-- `convert_timedelta_to_seconds` (etl_historical.py lines 20-26):
`pd.isna` short-circuit to `None`, then `td.total_seconds()` under a
`try/except (AttributeError, TypeError)` that degrades to `None`. -/
def total_seconds : PCell → Except Unit Rat
  | .td q => .ok q
  | _ => .error ()

def convert_timedelta_to_seconds (td : PCell) : Option Rat :=
  if isna td then none
  else
    match total_seconds td with
    | .ok q => some q
    | .error _ => none

/-- Circuit natural key (line 30):
`str(event['EventName']).lower().replace(' ', '_').replace("'", "").replace('-', '_')`. -/
def circuitKeyOf (eventName : PCell) : String :=
  replaceChar '-' '_' (dropChar apostrophe (replaceChar ' ' '_' (pyLower (pyStr eventName))))

/-- Team natural key (lines 84-85): the team name is `str(...).strip()`
first; the key is `lower().replace(' ', '_').replace('-', '_')` — note
no apostrophe removal, unlike the circuit key. -/
def teamKeyOf (team_name : String) : String :=
  replaceChar '-' '_' (replaceChar ' ' '_' (pyLower team_name))

/-! ## Relational store (schema from `backend/models/database.py`) -/

/-- A `circuits` row (columns the ETL writes). -/
structure CircuitRow where
  id : Nat
  circuit_key : String
  name : String
  location : String
  country : String
deriving DecidableEq, Repr

/-- A `drivers` row. -/
structure DriverRow where
  id : Nat
  driver_number : Option Int
  code : String
  first_name : String
  last_name : String
  broadcast_name : String
  nationality : String
deriving DecidableEq, Repr

/-- A `teams` row. -/
structure TeamRow where
  id : Nat
  team_key : String
  name : String
deriving DecidableEq, Repr

/-- A `races` row; `race_date` is the abstract day number of
`event['EventDate'].date()`. -/
structure RaceRow where
  id : Nat
  year : Int
  round_number : Int
  race_name : String
  circuit_id : Nat
  race_date : Option Int
deriving DecidableEq, Repr

/-- A `qualifying_results` row. -/
structure QualifyingRow where
  id : Nat
  race_id : Nat
  driver_id : Nat
  position : Option Int
  q1_time : Option Rat
  q2_time : Option Rat
  q3_time : Option Rat
deriving DecidableEq, Repr

/-- A `race_results` row. -/
structure RaceResultRow where
  id : Nat
  race_id : Nat
  driver_id : Nat
  team_id : Option Nat
  grid_position : Option Int
  final_position : Option Int
  points : Rat
  status : String
deriving DecidableEq, Repr

/-- A `lap_times` row. -/
structure LapTimeRow where
  id : Nat
  race_id : Nat
  driver_id : Nat
  lap_number : Option Int
  lap_time : Option Rat
  compound : Option String
  tyre_life : Option Int
deriving DecidableEq, Repr

/-- A `pit_stops` row. -/
structure PitStopRow where
  id : Nat
  race_id : Nat
  driver_id : Nat
  lap_number : Option Int
  compound_after : Option String
deriving DecidableEq, Repr

/-- A `weather` row. -/
structure WeatherDBRow where
  id : Nat
  race_id : Nat
  air_temp : Option Rat
  track_temp : Option Rat
  humidity : Option Rat
  pressure : Option Rat
  rainfall : Bool
deriving DecidableEq, Repr

/-- The committed state of the store: one list per table, in insertion
order (SQLAlchemy `query(...).first()` scans in this order). -/
structure Store where
  circuits : List CircuitRow
  drivers : List DriverRow
  teams : List TeamRow
  races : List RaceRow
  qualifying_results : List QualifyingRow
  race_results : List RaceResultRow
  lap_times : List LapTimeRow
  pit_stops : List PitStopRow
  weather : List WeatherDBRow
deriving DecidableEq, Repr

/-- The empty store. -/
def Store.empty : Store := ⟨[], [], [], [], [], [], [], [], []⟩

/-! ## Provider-side rows (the tabular views of fastf1 sessions) -/

/-- An event descriptor (one row of `fastf1.get_event_schedule`).
`EventName`, `RoundNumber`, `EventDate` are accessed by bracket (the
schedule always carries these columns); `Location`/`Country` through
`.get` with a default, so they may be absent. -/
structure Event where
  eventName : PCell
  location : Option PCell
  country : Option PCell
  roundNumber : PCell
  eventDate : PCell
deriving DecidableEq, Repr

/-- One row of a session's `results` table. Bracket-accessed columns
(`Abbreviation`, `Position`, `GridPosition`, `Points`) are present;
`.get`-accessed ones are optional. The same row doubles as the
`driver_info` descriptor passed to driver resolution. -/
structure ResultRow where
  abbreviation : PCell
  driverNumber : Option PCell
  firstName : Option PCell
  lastName : Option PCell
  broadcastName : Option PCell
  countryCode : Option PCell
  teamName : Option PCell
  status : Option PCell
  position : PCell
  gridPosition : PCell
  points : PCell
  q1 : Option PCell
  q2 : Option PCell
  q3 : Option PCell
deriving DecidableEq, Repr

/-- One row of a session's `laps` table. `Driver` holds the driver
abbreviation (a string column, used by `pick_driver` and the pit-stop
`filter_by(code=lap['Driver'])`); `LapNumber` and `PitOutTime` are
bracket-accessed columns. -/
structure LapRow where
  driver : String
  lapNumber : PCell
  lapTime : Option PCell
  compound : Option PCell
  tyreLife : Option PCell
  pitOutTime : PCell
deriving DecidableEq, Repr

/-- One row of a session's `weather` table (all fields `.get`-accessed). -/
structure WeatherRow where
  airTemp : Option PCell
  trackTemp : Option PCell
  humidity : Option PCell
  pressure : Option PCell
  rainfall : Option PCell
deriving DecidableEq, Repr

/-! ## Entity resolvers (`get_or_create_*`, lines 28-99) -/

/-- `get_or_create_circuit` (lines 28-46): derive the key, look it up,
create-and-commit when absent, return the row either way. -/
def get_or_create_circuit (s : Store) (event : Event) : Store × CircuitRow :=
  let circuit_key := circuitKeyOf event.eventName
  match s.circuits.find? (fun c => c.circuit_key == circuit_key) with
  | some c => (s, c)
  | none =>
    let c : CircuitRow :=
      { id := s.circuits.length + 1
        circuit_key := circuit_key
        name := pyStr event.eventName
        location := pyStr (getCellD event.location (.str "Unknown"))
        country := pyStr (getCellD event.country (.str "Unknown")) }
    ({ s with circuits := s.circuits ++ [c] }, c)

/-- `get_or_create_driver` (lines 48-76): NaN/falsy abbreviation returns
`None`; lookup by stripped code; creation only when a descriptor row is
supplied; the `DriverNumber` conversion is guarded by its own
`try/except` degrading to `None`. -/
def get_or_create_driver (s : Store) (driver_abbr : PCell)
    (driver_info : Option ResultRow) : Store × Option DriverRow :=
  if isna driver_abbr || !pyTruthy driver_abbr then (s, none)
  else
    let abbr := pyStrip (pyStr driver_abbr)
    match s.drivers.find? (fun d => d.code == abbr) with
    | some d => (s, some d)
    | none =>
      match driver_info with
      | none => (s, none)
      | some info =>
        let driver_number : Option Int :=
          match info.driverNumber with
          | none => none
          | some c => if isna c then none else (pyInt c).toOption
        let d : DriverRow :=
          { id := s.drivers.length + 1
            driver_number := driver_number
            code := abbr
            first_name := pyStr (getCellD info.firstName (.str ""))
            last_name := pyStr (getCellD info.lastName (.str ""))
            broadcast_name := pyStr (getCellD info.broadcastName (.str abbr))
            nationality := pyStr (getCellD info.countryCode (.str "Unknown")) }
        ({ s with drivers := s.drivers ++ [d] }, some d)

/-- `get_or_create_team` (lines 79-99): NaN/falsy name returns `None`;
the stored name is the stripped string, the key its normalization. -/
def get_or_create_team (s : Store) (team_name? : Option PCell) :
    Store × Option TeamRow :=
  let cell := getCell team_name?
  if isna cell || !pyTruthy cell then (s, none)
  else
    let team_name := pyStrip (pyStr cell)
    let team_key := teamKeyOf team_name
    match s.teams.find? (fun t => t.team_key == team_key) with
    | some t => (s, some t)
    | none =>
      let t : TeamRow := { id := s.teams.length + 1, team_key := team_key, name := team_name }
      ({ s with teams := s.teams ++ [t] }, some t)

/-! ## Session sub-loaders (lines 183-322)

Each loader builds its batch in `Except Unit`; any exception during the
batch aborts the whole batch.  The loader then either commits (appends
the batch to its table) or rolls back (returns the store unchanged) —
the `try/commit/except/rollback` shape of every sub-loader.  Loaders
never raise to their caller. -/

/-- `session.query(Driver).filter_by(code=cell).first()` where `cell` is
a raw pandas cell: only a string cell can match the string `code`
column. -/
def findDriverByCell (s : Store) (c : PCell) : Option DriverRow :=
  match c with
  | .str a => s.drivers.find? (fun d => d.code == a)
  | _ => none

/-- `int(cell) if pd.notna(cell) else None`, for a bracket-accessed
column (the guard and the value read the same cell). -/
def optIntField (c : PCell) : Except Unit (Option Int) :=
  if isna c then .ok none
  else
    match pyInt c with
    | .ok n => .ok (some n)
    | .error e => .error e

/-- `int(row[k]) if pd.notna(row.get(k)) else None`: an absent column
short-circuits to `None` through the falsy guard. -/
def optIntOfGet (c? : Option PCell) : Except Unit (Option Int) :=
  match c? with
  | none => .ok none
  | some c => optIntField c

/-- `float(row[k]) if pd.notna(row.get(k)) else None`. -/
def optFloatOfGet (c? : Option PCell) : Except Unit (Option Rat) :=
  match c? with
  | none => .ok none
  | some c =>
    if isna c then .ok none
    else
      match pyFloat c with
      | .ok q => .ok (some q)
      | .error e => .error e

/-- `str(row.get(k)) if pd.notna(row.get(k)) else None` (never raises). -/
def optStrOfGet (c? : Option PCell) : Option String :=
  if isna (getCell c?) then none else some (pyStr (getCell c?))

/-- The batch of `load_qualifying_results` (lines 183-205): per result
row, look the driver up by `Abbreviation`; skip (`continue`) when
unresolved; otherwise build the `QualifyingResult`, converting
`Position` (may raise) and normalizing Q1/Q2/Q3. -/
def qualiRowsOf (s : Store) (race : RaceRow) (rows : List ResultRow)
    (nextId : Nat) : Except Unit (List QualifyingRow) :=
  match rows with
  | [] => .ok []
  | row :: rest =>
    match findDriverByCell s row.abbreviation with
    | none => qualiRowsOf s race rest nextId
    | some d =>
      match optIntField row.position with
      | .error e => .error e
      | .ok pos =>
        match qualiRowsOf s race rest (nextId + 1) with
        | .error e => .error e
        | .ok es =>
          .ok ({ id := nextId
                 race_id := race.id
                 driver_id := d.id
                 position := pos
                 q1_time := convert_timedelta_to_seconds (getCell row.q1)
                 q2_time := convert_timedelta_to_seconds (getCell row.q2)
                 q3_time := convert_timedelta_to_seconds (getCell row.q3) } :: es)

def load_qualifying_results (s : Store) (race : RaceRow)
    (rows : List ResultRow) : Store :=
  match qualiRowsOf s race rows (s.qualifying_results.length + 1) with
  | .ok new => { s with qualifying_results := s.qualifying_results ++ new }
  | .error _ => s

/-- `session.query(Team).filter_by(name=row.get('TeamName')).first()`
(line 216): lookup by the raw cell against the string `name` column. -/
def teamLookup (s : Store) (c? : Option PCell) : Option TeamRow :=
  match c? with
  | some (.str t) => s.teams.find? (fun tm => tm.name == t)
  | _ => none

/-- One iteration of the `load_race_results` loop (lines 211-227):
`None` means the row was skipped because the driver did not resolve. -/
def mkRaceResultRow (s : Store) (race : RaceRow) (nextId : Nat)
    (row : ResultRow) : Except Unit (Option RaceResultRow) :=
  match findDriverByCell s row.abbreviation with
  | none => .ok none
  | some d =>
    let team := teamLookup s row.teamName
    match optIntField row.gridPosition with
    | .error e => .error e
    | .ok gp =>
      match optIntField row.position with
      | .error e => .error e
      | .ok fp =>
        match (if isna row.points then .ok (0 : Rat) else pyFloat row.points : Except Unit Rat) with
        | .error e => .error e
        | .ok pts =>
          .ok (some { id := nextId
                      race_id := race.id
                      driver_id := d.id
                      team_id := team.map (fun t => t.id)
                      grid_position := gp
                      final_position := fp
                      points := pts
                      status := pyStr (getCellD row.status (.str "Unknown")) })

/-- The batch of `load_race_results` (lines 208-233). -/
def raceResultRowsOf (s : Store) (race : RaceRow) (rows : List ResultRow)
    (nextId : Nat) : Except Unit (List RaceResultRow) :=
  match rows with
  | [] => .ok []
  | row :: rest =>
    match mkRaceResultRow s race nextId row with
    | .error e => .error e
    | .ok none => raceResultRowsOf s race rest nextId
    | .ok (some rr) =>
      match raceResultRowsOf s race rest (nextId + 1) with
      | .error e => .error e
      | .ok es => .ok (rr :: es)

def load_race_results (s : Store) (race : RaceRow) (rows : List ResultRow) : Store :=
  match raceResultRowsOf s race rows (s.race_results.length + 1) with
  | .ok new => { s with race_results := s.race_results ++ new }
  | .error _ => s

/-- `race_session.laps.pick_driver(abbr)` for a string abbreviation:
the laps whose `Driver` column equals it. -/
def pickDriver (laps : List LapRow) (c : PCell) : List LapRow :=
  match c with
  | .str a => laps.filter (fun l => l.driver == a)
  | _ => []

/-- One `LapTime` entry (lines 250-257): `LapNumber` bracket-guarded,
`TyreLife` `.get`-guarded, `LapTime`/`Compound` normalized. -/
def lapEntryOf (race : RaceRow) (d : DriverRow) (nextId : Nat)
    (lap : LapRow) : Except Unit LapTimeRow :=
  match optIntField lap.lapNumber with
  | .error e => .error e
  | .ok ln =>
    match optIntOfGet lap.tyreLife with
    | .error e => .error e
    | .ok tl =>
      .ok { id := nextId
            race_id := race.id
            driver_id := d.id
            lap_number := ln
            lap_time := convert_timedelta_to_seconds (getCell lap.lapTime)
            compound := optStrOfGet lap.compound
            tyre_life := tl }

/-- All lap entries of one resolved driver, ids assigned sequentially. -/
def lapRowsForDriver (race : RaceRow) (d : DriverRow) (laps : List LapRow)
    (nextId : Nat) : Except Unit (List LapTimeRow) :=
  match laps with
  | [] => .ok []
  | lap :: rest =>
    match lapEntryOf race d nextId lap with
    | .error e => .error e
    | .ok e =>
      match lapRowsForDriver race d rest (nextId + 1) with
      | .error e => .error e
      | .ok es => .ok (e :: es)

/-- The batch of `load_lap_times_sample` (lines 236-265): iterate the
abbreviation column of the race-result roster; unresolved drivers are
skipped (their laps contribute nothing); for each resolved driver the
lookup happens once and is reused across that driver's laps. -/
def lapRowsOf (s : Store) (race : RaceRow) (allLaps : List LapRow)
    (abbrs : List PCell) (nextId : Nat) : Except Unit (List LapTimeRow) :=
  match abbrs with
  | [] => .ok []
  | a :: rest =>
    match findDriverByCell s a with
    | none => lapRowsOf s race allLaps rest nextId
    | some d =>
      match lapRowsForDriver race d (pickDriver allLaps a) nextId with
      | .error e => .error e
      | .ok es =>
        match lapRowsOf s race allLaps rest (nextId + es.length) with
        | .error e => .error e
        | .ok more => .ok (es ++ more)

def load_lap_times_sample (s : Store) (race : RaceRow)
    (results : List ResultRow) (laps : List LapRow) : Store :=
  match lapRowsOf s race laps (results.map (fun r => r.abbreviation))
      (s.lap_times.length + 1) with
  | .ok new => { s with lap_times := s.lap_times ++ new }
  | .error _ => s

/-- The batch of `load_pit_stops` (lines 268-292): filter the lap table
to laps with a non-NaN `PitOutTime`, resolve the driver by the string
`Driver` column, skip unresolved, build the `PitStop`. -/
def pitRowsOf (s : Store) (race : RaceRow) (laps : List LapRow)
    (nextId : Nat) : Except Unit (List PitStopRow) :=
  match laps with
  | [] => .ok []
  | lap :: rest =>
    match s.drivers.find? (fun d => d.code == lap.driver) with
    | none => pitRowsOf s race rest nextId
    | some d =>
      match optIntField lap.lapNumber with
      | .error e => .error e
      | .ok ln =>
        match pitRowsOf s race rest (nextId + 1) with
        | .error e => .error e
        | .ok es =>
          .ok ({ id := nextId
                 race_id := race.id
                 driver_id := d.id
                 lap_number := ln
                 compound_after := optStrOfGet lap.compound } :: es)

def load_pit_stops (s : Store) (race : RaceRow) (laps : List LapRow) : Store :=
  match pitRowsOf s race (laps.filter (fun l => !isna l.pitOutTime))
      (s.pit_stops.length + 1) with
  | .ok new => { s with pit_stops := s.pit_stops ++ new }
  | .error _ => s

/-- `weather_data.iloc[::10]`: keep the samples at indices 0, 10, 20, …
`sampleEvery10Aux k` skips `k` further elements before the next keep. -/
def sampleEvery10Aux : Nat → List α → List α
  | _, [] => []
  | 0, x :: xs => x :: sampleEvery10Aux 9 xs
  | k + 1, _ :: xs => sampleEvery10Aux k xs

def sampleEvery10 (l : List α) : List α := sampleEvery10Aux 0 l

/-- One `Weather` entry (lines 307-314); the four float conversions may
raise, `bool(...)` never does. -/
def weatherEntryOf (race : RaceRow) (nextId : Nat) (w : WeatherRow) :
    Except Unit WeatherDBRow :=
  match optFloatOfGet w.airTemp with
  | .error e => .error e
  | .ok at_ =>
    match optFloatOfGet w.trackTemp with
    | .error e => .error e
    | .ok tt =>
      match optFloatOfGet w.humidity with
      | .error e => .error e
      | .ok hu =>
        match optFloatOfGet w.pressure with
        | .error e => .error e
        | .ok pr =>
          .ok { id := nextId
                race_id := race.id
                air_temp := at_
                track_temp := tt
                humidity := hu
                pressure := pr
                rainfall :=
                  match w.rainfall with
                  | none => false
                  | some c => if isna c then false else pyBool c }

/-- The converted batch over the already-sampled weather rows. -/
def weatherRowsOf (race : RaceRow) (rows : List WeatherRow) (nextId : Nat) :
    Except Unit (List WeatherDBRow) :=
  match rows with
  | [] => .ok []
  | w :: rest =>
    match weatherEntryOf race nextId w with
    | .error e => .error e
    | .ok e =>
      match weatherRowsOf race rest (nextId + 1) with
      | .error e => .error e
      | .ok es => .ok (e :: es)

/-- `load_weather_data` (lines 295-322): a missing/`None` weather table
is an early `return` (no-op, no error); otherwise the every-10th sample
is converted and committed, any exception rolling the batch back. -/
def load_weather_data (s : Store) (race : RaceRow)
    (weather? : Option (List WeatherRow)) : Store :=
  match weather? with
  | none => s
  | some w =>
    match weatherRowsOf race (sampleEvery10 w) (s.weather.length + 1) with
    | .ok new => { s with weather := s.weather ++ new }
    | .error _ => s

/-! ## Race weekend loader (`load_race_weekend`, lines 103-180) -/

/-- The provider data one weekend load observes. `event?` is the result
of `schedule[schedule['EventName'] == race_name].iloc[0]` — `none` when
the schedule fetch fails or no event matches (`IndexError`), both caught
by the weekend-level `except`. `loads_ok` is whether the blocking
`quali.load()` / `race.load()` provider calls succeed. -/
structure WeekendData where
  event? : Option Event
  loads_ok : Bool
  qualiResults : List ResultRow
  raceResults : List ResultRow
  raceLaps : List LapRow
  weather? : Option (List WeatherRow)
deriving DecidableEq, Repr

/-- The drivers/teams pass (lines 150-154): for every race-result row,
resolve the driver (with the row as descriptor) then the team; both
commits are immediate, so later rows and sub-loaders observe them. -/
def resolveRoster (s : Store) (rows : List ResultRow) : Store :=
  rows.foldl
    (fun st row =>
      let st1 := (get_or_create_driver st row.abbreviation (some row)).1
      (get_or_create_team st1 row.teamName).1)
    s

/-- Construction of the `Race` entry (lines 139-145): keyword values are
evaluated left to right, so `int(event['RoundNumber'])` may raise first,
then `event['EventDate'].date()` (an `AttributeError` on a non-datetime
non-NaN cell); both escape to the weekend-level `except`. -/
def mkRaceEntry (event : Event) (year : Int) (race_name : String)
    (circuit_id nextId : Nat) : Except Unit RaceRow :=
  match pyInt event.roundNumber with
  | .error e => .error e
  | .ok rnd =>
    match (if isna event.eventDate then .ok none
           else
             match event.eventDate with
             | .dt n => .ok (some n)
             | _ => .error () : Except Unit (Option Int)) with
    | .error e => .error e
    | .ok rdate =>
      .ok { id := nextId
            year := year
            round_number := rnd
            race_name := race_name
            circuit_id := circuit_id
            race_date := rdate }

/-- The tail of a successful weekend (lines 150-174): the roster pass
followed by the five sub-loaders in their fixed order, starting from the
store holding the freshly committed race entry. -/
def runSubLoaders (race_entry : RaceRow) (d : WeekendData) (s2 : Store) : Store :=
  load_weather_data
    (load_pit_stops
      (load_lap_times_sample
        (load_race_results
          (load_qualifying_results
            (resolveRoster s2 d.raceResults)
            race_entry d.qualiResults)
          race_entry d.raceResults)
        race_entry d.raceResults d.raceLaps)
      race_entry d.raceLaps)
    race_entry d.weather?

/-- `load_race_weekend` (lines 103-180).  Order of effects, as in the
source: resolve (and possibly create+commit) the circuit FIRST, then the
`(year, race_name)` existence check with its early return, then the
provider session loads, the committed `Race` entry, the roster pass, and
the five sub-loaders.  The surrounding `try/except` catches any escaping
exception and calls `session.rollback()`, which cannot undo the commits
already made — so each failure branch returns the store as committed so
far. -/
def load_race_weekend (year : Int) (race_name : String) (d : WeekendData)
    (s : Store) : Store :=
  match d.event? with
  | none => s
  | some event =>
    let p := get_or_create_circuit s event
    let s1 := p.1
    let circuit := p.2
    if s1.races.any (fun r => r.year == year && r.race_name == race_name) then
      s1
    else if !d.loads_ok then
      s1
    else
      match mkRaceEntry event year race_name circuit.id (s1.races.length + 1) with
      | .error _ => s1
      | .ok race_entry =>
        runSubLoaders race_entry d { s1 with races := s1.races ++ [race_entry] }

/-! ## Spec-side definitions (refinement counterparts, written from the
wording of the specification rather than from the source) -/

/-- Modelled from the spec (§4.1/§8 Null-safety): the duration
normalizer yields the duration's second count for a valid duration and
null for every absent or invalid input. -/
def spec_duration_normalize : PCell → Option Rat
  | .td q => some q
  | _ => none

/-- Modelled from the spec (§3 invariants / C7): a derived natural key
lower-cases the name and normalizes in one pass — apostrophes are
removed, spaces and hyphens become underscores. -/
def spec_derived_key (s : String) : String :=
  String.mk (s.data.filterMap
    (fun c =>
      if c.toLower = apostrophe then none
      else if c.toLower = ' ' ∨ c.toLower = '-' then some '_'
      else some c.toLower))

/-- The team-key derivation as the code performs it: like
`spec_derived_key` but apostrophes are RETAINED. -/
def spec_team_key (s : String) : String :=
  String.mk (s.data.map
    (fun c => if c.toLower = ' ' ∨ c.toLower = '-' then '_' else c.toLower))

/-! ## Helper lemmas -/

theorem optIntField_isna {c : PCell} (h : isna c = true) :
    optIntField c = .ok none := by
  simp [optIntField, h]

/-! ## C5 -/

/-- C5: the duration normalizer `convert_timedelta_to_seconds` never
raises (it is a total function into `Option`): on every scalar input it
returns the duration's second count for a valid duration and null for
every absent (NaN/NaT/None) or wrongly-typed input — exactly the
spec-side normalizer. -/
theorem C5_normalizer_total_refines_spec :
    ∀ c : PCell, convert_timedelta_to_seconds c = spec_duration_normalize c := by
  intro c
  cases c <;> rfl

/-! ## C10 -/

/-- C10: driver resolution called with a non-empty, non-NaN code but no
descriptor (`driver_info=None`) returns `None` and leaves the store
unchanged when no stored driver carries that code — a bare code never
creates a Driver row. -/
theorem C10_bare_code_creates_no_driver :
    ∀ (s : Store) (c : PCell),
      isna c = false → pyTruthy c = true →
      s.drivers.find? (fun d => d.code == pyStrip (pyStr c)) = none →
      get_or_create_driver s c none = (s, none) := by
  intro s c h1 h2 h3
  simp [get_or_create_driver, h1, h2, h3]

theorem C10_bare_code_creates_no_driver_witness :
    get_or_create_driver Store.empty (.str "VER") none = (Store.empty, none) :=
  C10_bare_code_creates_no_driver Store.empty (.str "VER") (by decide) (by decide) rfl

/-! ## C9 -/

/-- C9: in the race-result loader, a row whose `Points` cell is
absent/NaN is stored with `points = 0.0` (the field's type is a plain
float, never null), while the other normalized numeric fields
(`GridPosition`, `Position`) degrade to null instead. -/
theorem C9_points_nan_degrades_to_zero :
    ∀ (s : Store) (race : RaceRow) (nextId : Nat) (row : ResultRow)
      (rr : RaceResultRow),
      mkRaceResultRow s race nextId row = .ok (some rr) →
      (isna row.points = true → rr.points = 0)
      ∧ (isna row.gridPosition = true → rr.grid_position = none)
      ∧ (isna row.position = true → rr.final_position = none) := by
  intro s race nextId row rr h
  unfold mkRaceResultRow at h
  cases hf : findDriverByCell s row.abbreviation with
  | none => rw [hf] at h; cases h
  | some d =>
    rw [hf] at h
    cases hg : optIntField row.gridPosition with
    | error e => rw [hg] at h; cases h
    | ok gp =>
      rw [hg] at h
      cases hp : optIntField row.position with
      | error e => rw [hp] at h; cases h
      | ok fp =>
        rw [hp] at h
        cases hq : (if isna row.points then .ok (0 : Rat) else pyFloat row.points : Except Unit Rat) with
        | error e => rw [hq] at h; cases h
        | ok pts =>
          rw [hq] at h
          injection h with h'
          injection h' with h''
          subst h''
          refine ⟨fun hna => ?_, fun hna => ?_, fun hna => ?_⟩
          · simp [hna] at hq; simp [hq]
          · rw [optIntField_isna hna] at hg
            injection hg with hg'; simp [← hg']
          · rw [optIntField_isna hna] at hp
            injection hp with hp'; simp [← hp']

/-! ## Concrete fixtures shared by witnesses -/

def raceFix : RaceRow :=
  { id := 1, year := 2024, round_number := 8, race_name := "Monaco Grand Prix",
    circuit_id := 1, race_date := none }

def driverFix : DriverRow :=
  { id := 1, driver_number := some 1, code := "VER", first_name := "Max",
    last_name := "Verstappen", broadcast_name := "M VERSTAPPEN",
    nationality := "NED" }

def storeFix : Store := { Store.empty with drivers := [driverFix] }

/-- A results row whose numeric cells are all NaN. -/
def rowNaN : ResultRow :=
  { abbreviation := .str "VER", driverNumber := none, firstName := none,
    lastName := none, broadcastName := none, countryCode := none,
    teamName := none, status := none, position := .nan,
    gridPosition := .nan, points := .nan, q1 := none, q2 := none, q3 := none }

def rrFix : RaceResultRow :=
  { id := 1, race_id := 1, driver_id := 1, team_id := none,
    grid_position := none, final_position := none, points := 0,
    status := "Unknown" }

theorem C9_points_nan_degrades_to_zero_witness :
    mkRaceResultRow storeFix raceFix 1 rowNaN = .ok (some rrFix)
    ∧ rrFix.points = 0 ∧ rrFix.grid_position = none
    ∧ rrFix.final_position = none := by
  have hmk : mkRaceResultRow storeFix raceFix 1 rowNaN = .ok (some rrFix) := by rfl
  have h := C9_points_nan_degrades_to_zero storeFix raceFix 1 rowNaN rrFix hmk
  exact ⟨hmk, h.1 rfl, h.2.1 rfl, h.2.2 rfl⟩

/-! ## C7 -/

theorem map_filter_map_eq_filterMap {α : Type} (f₂ : α → α) (p : α → Bool)
    (f₁ : α → α) (l : List α) :
    ((l.map f₁).filter p).map f₂
      = l.filterMap (fun c => if p (f₁ c) then some (f₂ (f₁ c)) else none) := by
  induction l with
  | nil => rfl
  | cons c l ih =>
    by_cases h : p (f₁ c) = true <;>
      simp [List.filter_cons, h, ih]

theorem circuitKey_char_eq (c : Char) :
    (if ((if c.toLower = ' ' then '_' else c.toLower) ≠ apostrophe : Bool) = true
      then some (if (if c.toLower = ' ' then '_' else c.toLower) = '-' then '_'
                 else (if c.toLower = ' ' then '_' else c.toLower))
      else none)
    = (if c.toLower = apostrophe then none
       else if c.toLower = ' ' ∨ c.toLower = '-' then some '_'
       else some c.toLower) := by
  by_cases h1 : c.toLower = apostrophe
  · rw [h1]; decide
  · by_cases h2 : c.toLower = ' '
    · rw [h2]; decide
    · by_cases h3 : c.toLower = '-'
      · rw [h3]; decide
      · simp [h1, h2, h3]

/-- The circuit-key derivation in the source (lower, space→underscore,
apostrophe removed, hyphen→underscore) equals the spec-side one-pass
derived key on every string name. -/
theorem circuitKey_refines (s : String) :
    circuitKeyOf (.str s) = spec_derived_key s := by
  unfold circuitKeyOf spec_derived_key pyLower replaceChar dropChar pyStr
  refine congrArg String.mk ?_
  show (((s.data.map Char.toLower).map (fun x => if x = ' ' then '_' else x)).filter
        (fun x => x ≠ apostrophe)).map (fun x => if x = '-' then '_' else x) = _
  rw [List.map_map, map_filter_map_eq_filterMap]
  refine List.filterMap_congr ?_
  intro c _
  simp only [Function.comp_apply]
  exact circuitKey_char_eq c

/-- The team-key derivation in the source equals the spec-side one-pass
map that lower-cases and sends spaces/hyphens to underscores but keeps
apostrophes. -/
theorem teamKey_eq_spec (s : String) :
    teamKeyOf s = spec_team_key s := by
  unfold teamKeyOf spec_team_key pyLower replaceChar
  refine congrArg String.mk ?_
  show ((s.data.map Char.toLower).map (fun x => if x = ' ' then '_' else x)).map
        (fun x => if x = '-' then '_' else x) = _
  rw [List.map_map, List.map_map]
  refine List.map_congr_left ?_
  intro c _
  simp only [Function.comp_apply]
  by_cases h2 : c.toLower = ' '
  · rw [h2]; decide
  · by_cases h3 : c.toLower = '-'
    · rw [h3]; decide
    · simp [h2, h3]

/-- A team name containing an apostrophe. -/
def apoName : String := String.mk ['D', apostrophe, 'A']

/-- C7 (counterexample): the claim states that the `team_key` derivation
removes apostrophes.  It does not: resolving a team named `D'A` stores
the key `d'a` (apostrophe retained), which differs from the
apostrophe-removing derivation the claim describes (`da`). -/
theorem C7_team_key_keeps_apostrophe_counterexample :
    ((get_or_create_team Store.empty (some (.str apoName))).1.teams.map
        (fun t => t.team_key))
      = [String.mk ['d', apostrophe, 'a']]
    ∧ String.mk ['d', apostrophe, 'a'] ≠ spec_derived_key apoName := by
  exact ⟨by decide, by decide⟩

/-- C7 (amended): `circuit_key` is derived deterministically by
lower-casing and normalizing (spaces and hyphens become underscores,
apostrophes are removed); `team_key` is derived the same way EXCEPT that
apostrophes are retained; in particular the event name
`"Monaco Grand Prix"` yields circuit key (and team key)
`"monaco_grand_prix"`. -/
theorem C7_key_derivation_amended :
    (∀ s : String, circuitKeyOf (.str s) = spec_derived_key s)
    ∧ (∀ s : String, teamKeyOf s = spec_team_key s)
    ∧ circuitKeyOf (.str "Monaco Grand Prix") = "monaco_grand_prix"
    ∧ teamKeyOf "Monaco Grand Prix" = "monaco_grand_prix" := by
  exact ⟨circuitKey_refines, teamKey_eq_spec, by decide, by decide⟩

/-! ## C8 -/

theorem sampleEvery10Aux_length {α : Type} (l : List α) :
    ∀ k, (sampleEvery10Aux k l).length = (l.length + 9 - k) / 10 := by
  induction l with
  | nil => intro k; simp only [sampleEvery10Aux, List.length_nil]; omega
  | cons x xs ih =>
    intro k
    cases k with
    | zero =>
      simp only [sampleEvery10Aux, List.length_cons, ih 9]; omega
    | succ k =>
      simp only [sampleEvery10Aux, List.length_cons, ih k]; omega

theorem sampleEvery10_length {α : Type} (l : List α) :
    (sampleEvery10 l).length = (l.length + 9) / 10 := by
  simpa using sampleEvery10Aux_length l 0

theorem sampleEvery10Aux_getElem {α : Type} (l : List α) :
    ∀ k i, (sampleEvery10Aux k l)[i]? = l[k + 10 * i]? := by
  induction l with
  | nil => intro k i; simp [sampleEvery10Aux]
  | cons x xs ih =>
    intro k i
    cases k with
    | zero =>
      cases i with
      | zero => simp [sampleEvery10Aux]
      | succ i =>
        have h10 : 10 * (i + 1) = (9 + 10 * i) + 1 := by omega
        simp [sampleEvery10Aux, ih 9 i, h10]
    | succ k =>
      have hk : k + 1 + 10 * i = (k + 10 * i) + 1 := by omega
      simp [sampleEvery10Aux, ih k i, hk]

theorem sampleEvery10_getElem {α : Type} (l : List α) (i : Nat) :
    (sampleEvery10 l)[i]? = l[10 * i]? := by
  simpa using sampleEvery10Aux_getElem l 0 i

theorem weatherRowsOf_length (race : RaceRow) :
    ∀ (rows : List WeatherRow) (n : Nat) (new : List WeatherDBRow),
      weatherRowsOf race rows n = .ok new → new.length = rows.length := by
  intro rows
  induction rows with
  | nil => intro n new h; unfold weatherRowsOf at h; injection h with h; simp [← h]
  | cons w rest ih =>
    intro n new h
    unfold weatherRowsOf at h
    cases he : weatherEntryOf race n w with
    | error e => rw [he] at h; cases h
    | ok e =>
      rw [he] at h
      cases hr : weatherRowsOf race rest (n + 1) with
      | error e => rw [hr] at h; cases h
      | ok es =>
        rw [hr] at h
        injection h with h
        simp [← h, ih (n + 1) es hr]

/-- A weather sample whose `AirTemp` cell holds a raw timedelta:
`pd.notna` passes, and `float(...)` raises `TypeError`. -/
def badWeather : WeatherRow :=
  { airTemp := some (.td 1), trackTemp := none, humidity := none,
    pressure := none, rainfall := none }

/-- C8 (counterexample): the claim promises `ceil(L/10)` stored rows for
EVERY series of length L, but a series of length 1 whose sampled row has
a malformed (non-convertible) `AirTemp` makes the batch raise, and the
loader rolls back and stores 0 rows, not `ceil(1/10) = 1`. -/
theorem C8_malformed_sample_stores_zero_rows :
    (load_weather_data Store.empty raceFix (some [badWeather])).weather.length = 0
    ∧ ((1 : Nat) + 9) / 10 = 1 := ⟨rfl, rfl⟩

/-- C8 (amended): for every weather series of length L whose sampled
rows all convert without error, the loader writes exactly `ceil(L/10)`
rows; the samples are taken at every 10th index starting from index 0;
and when no weather series is available the loader writes nothing and
completes without error (the store is returned unchanged). -/
theorem C8_weather_downsampling_amended :
    (∀ (race : RaceRow) (w : List WeatherRow) (n : Nat) (new : List WeatherDBRow),
      weatherRowsOf race (sampleEvery10 w) n = .ok new →
      new.length = (w.length + 9) / 10)
    ∧ (∀ (w : List WeatherRow) (i : Nat), (sampleEvery10 w)[i]? = w[10 * i]?)
    ∧ (∀ (s : Store) (race : RaceRow), load_weather_data s race none = s) := by
  refine ⟨fun race w n new h => ?_, fun w i => sampleEvery10_getElem w i,
    fun s race => rfl⟩
  rw [weatherRowsOf_length race (sampleEvery10 w) n new h]
  exact sampleEvery10_length w

/-- A well-formed (all-absent-fields) weather sample. -/
def emptyWeather : WeatherRow :=
  { airTemp := none, trackTemp := none, humidity := none, pressure := none,
    rainfall := none }

def wSeriesFix : List WeatherRow := List.replicate 11 emptyWeather

def wNewFix : List WeatherDBRow :=
  [ { id := 1, race_id := 1, air_temp := none, track_temp := none,
      humidity := none, pressure := none, rainfall := false },
    { id := 2, race_id := 1, air_temp := none, track_temp := none,
      humidity := none, pressure := none, rainfall := false } ]

theorem C8_weather_downsampling_amended_witness :
    weatherRowsOf raceFix (sampleEvery10 wSeriesFix) 1 = .ok wNewFix
    ∧ wNewFix.length = (wSeriesFix.length + 9) / 10
    ∧ (sampleEvery10 wSeriesFix)[1]? = wSeriesFix[10]?
    ∧ load_weather_data Store.empty raceFix none = Store.empty := by
  have h : weatherRowsOf raceFix (sampleEvery10 wSeriesFix) 1 = .ok wNewFix := by
    rfl
  exact ⟨h, C8_weather_downsampling_amended.1 raceFix wSeriesFix 1 wNewFix h,
    C8_weather_downsampling_amended.2.1 wSeriesFix 1,
    C8_weather_downsampling_amended.2.2 Store.empty raceFix⟩

/-! ## C2 -/

/-- N successive circuit resolutions with the same event, collecting the
returned rows. -/
def circuitResolveN : Nat → Store → Event → Store × List CircuitRow
  | 0, s, _ => (s, [])
  | n + 1, s, e =>
    let p := get_or_create_circuit s e
    let q := circuitResolveN n p.1 e
    (q.1, p.2 :: q.2)

/-- N successive driver resolutions with the same abbreviation and
descriptor. -/
def driverResolveN : Nat → Store → PCell → Option ResultRow →
    Store × List (Option DriverRow)
  | 0, s, _, _ => (s, [])
  | n + 1, s, a, info =>
    let p := get_or_create_driver s a info
    let q := driverResolveN n p.1 a info
    (q.1, p.2 :: q.2)

/-- N successive team resolutions with the same name cell. -/
def teamResolveN : Nat → Store → Option PCell → Store × List (Option TeamRow)
  | 0, s, _ => (s, [])
  | n + 1, s, t =>
    let p := get_or_create_team s t
    let q := teamResolveN n p.1 t
    (q.1, p.2 :: q.2)

theorem find?_eq_none_of_countP_zero {α : Type} (p : α → Bool) (l : List α)
    (h : l.countP p = 0) : l.find? p = none := by
  rw [List.find?_eq_none]
  intro x hx
  exact (List.countP_eq_zero.mp h) x hx

theorem goc_circuit_found (s : Store) (e : Event) (c : CircuitRow)
    (h : s.circuits.find? (fun x => x.circuit_key == circuitKeyOf e.eventName)
          = some c) :
    get_or_create_circuit s e = (s, c) := by
  simp only [get_or_create_circuit]
  rw [h]

theorem circuitResolveN_fixed (s : Store) (e : Event) (c : CircuitRow)
    (h : get_or_create_circuit s e = (s, c)) :
    ∀ n, circuitResolveN n s e = (s, List.replicate n c) := by
  intro n
  induction n with
  | zero => rfl
  | succ n ih => simp [circuitResolveN, h, ih, List.replicate_succ]

theorem gocd_driver_found (s : Store) (a : PCell) (info : Option ResultRow)
    (d : DriverRow)
    (h1 : isna a = false) (h2 : pyTruthy a = true)
    (h : s.drivers.find? (fun x => x.code == pyStrip (pyStr a)) = some d) :
    get_or_create_driver s a info = (s, some d) := by
  simp only [get_or_create_driver, h1, h2, Bool.false_or, Bool.not_true,
    Bool.false_eq_true, if_false]
  rw [h]

theorem driverResolveN_fixed (s : Store) (a : PCell) (info : Option ResultRow)
    (d? : Option DriverRow)
    (h : get_or_create_driver s a info = (s, d?)) :
    ∀ n, driverResolveN n s a info = (s, List.replicate n d?) := by
  intro n
  induction n with
  | zero => rfl
  | succ n ih => simp [driverResolveN, h, ih, List.replicate_succ]

theorem goct_team_found (s : Store) (t? : Option PCell) (t : TeamRow)
    (h1 : isna (getCell t?) = false) (h2 : pyTruthy (getCell t?) = true)
    (h : s.teams.find?
          (fun x => x.team_key == teamKeyOf (pyStrip (pyStr (getCell t?))))
          = some t) :
    get_or_create_team s t? = (s, some t) := by
  simp only [get_or_create_team, h1, h2, Bool.false_or, Bool.not_true,
    Bool.false_eq_true, if_false]
  rw [h]

theorem teamResolveN_fixed (s : Store) (t? : Option PCell)
    (r? : Option TeamRow)
    (h : get_or_create_team s t? = (s, r?)) :
    ∀ n, teamResolveN n s t? = (s, List.replicate n r?) := by
  intro n
  induction n with
  | zero => rfl
  | succ n ih => simp [teamResolveN, h, ih, List.replicate_succ]

theorem circuit_resolveN_spec (s : Store) (e : Event)
    (h0 : s.circuits.countP
        (fun c => c.circuit_key == circuitKeyOf e.eventName) = 0) (n : Nat) :
    circuitResolveN (n + 1) s e
      = ((get_or_create_circuit s e).1,
         List.replicate (n + 1) (get_or_create_circuit s e).2)
    ∧ (get_or_create_circuit s e).1.circuits.countP
        (fun c => c.circuit_key == circuitKeyOf e.eventName) = 1 := by
  have hfind := find?_eq_none_of_countP_zero
    (fun c : CircuitRow => c.circuit_key == circuitKeyOf e.eventName) s.circuits h0
  cases hP : get_or_create_circuit s e with
  | mk s1 c1 =>
    have h' := hP
    simp only [get_or_create_circuit, hfind] at h'
    rw [Prod.mk.injEq] at h'
    obtain ⟨hA, hB⟩ := h'
    have hs1 : s1.circuits = s.circuits ++ [c1] := by rw [← hA, ← hB]
    have hkey : c1.circuit_key = circuitKeyOf e.eventName := by rw [← hB]
    have hfind1 : s1.circuits.find?
        (fun x => x.circuit_key == circuitKeyOf e.eventName) = some c1 := by
      rw [hs1]
      simp [List.find?_append, hfind, hkey]
    have hstab := goc_circuit_found s1 e c1 hfind1
    constructor
    · simp only [circuitResolveN, hP, circuitResolveN_fixed s1 e c1 hstab n,
        List.replicate_succ]
    · simp only [hs1, List.countP_append, h0, List.countP_cons, hkey]
      simp

theorem driver_resolveN_spec (s : Store) (a : PCell) (info : ResultRow)
    (h1 : isna a = false) (h2 : pyTruthy a = true)
    (h0 : s.drivers.countP (fun d => d.code == pyStrip (pyStr a)) = 0) (n : Nat) :
    driverResolveN (n + 1) s a (some info)
      = ((get_or_create_driver s a (some info)).1,
         List.replicate (n + 1) (get_or_create_driver s a (some info)).2)
    ∧ (get_or_create_driver s a (some info)).1.drivers.countP
        (fun d => d.code == pyStrip (pyStr a)) = 1 := by
  have hfind := find?_eq_none_of_countP_zero
    (fun d : DriverRow => d.code == pyStrip (pyStr a)) s.drivers h0
  cases hP : get_or_create_driver s a (some info) with
  | mk s1 d? =>
    have h' := hP
    simp only [get_or_create_driver, h1, h2, Bool.false_or, Bool.not_true,
      Bool.false_eq_true, if_false, hfind] at h'
    rw [Prod.mk.injEq] at h'
    obtain ⟨hA, hB⟩ := h'
    cases d? with
    | none => cases hB
    | some d1 =>
      injection hB with hB1
      have hs1 : s1.drivers = s.drivers ++ [d1] := by rw [← hA, ← hB1]
      have hcode : d1.code = pyStrip (pyStr a) := by rw [← hB1]
      have hfind1 : s1.drivers.find?
          (fun x => x.code == pyStrip (pyStr a)) = some d1 := by
        rw [hs1]
        simp [List.find?_append, hfind, hcode]
      have hstab := gocd_driver_found s1 a (some info) d1 h1 h2 hfind1
      constructor
      · simp only [driverResolveN, hP,
          driverResolveN_fixed s1 a (some info) (some d1) hstab n,
          List.replicate_succ]
      · simp only [hP, hs1, List.countP_append, h0, List.countP_cons, hcode]
        simp

theorem team_resolveN_spec (s : Store) (t? : Option PCell)
    (h1 : isna (getCell t?) = false) (h2 : pyTruthy (getCell t?) = true)
    (h0 : s.teams.countP
        (fun tm => tm.team_key == teamKeyOf (pyStrip (pyStr (getCell t?)))) = 0)
    (n : Nat) :
    teamResolveN (n + 1) s t?
      = ((get_or_create_team s t?).1,
         List.replicate (n + 1) (get_or_create_team s t?).2)
    ∧ (get_or_create_team s t?).1.teams.countP
        (fun tm => tm.team_key == teamKeyOf (pyStrip (pyStr (getCell t?)))) = 1 := by
  have hfind := find?_eq_none_of_countP_zero
    (fun tm : TeamRow => tm.team_key == teamKeyOf (pyStrip (pyStr (getCell t?))))
    s.teams h0
  cases hP : get_or_create_team s t? with
  | mk s1 r? =>
    have h' := hP
    simp only [get_or_create_team, h1, h2, Bool.false_or, Bool.not_true,
      Bool.false_eq_true, if_false, hfind] at h'
    rw [Prod.mk.injEq] at h'
    obtain ⟨hA, hB⟩ := h'
    cases r? with
    | none => cases hB
    | some t1 =>
      injection hB with hB1
      have hs1 : s1.teams = s.teams ++ [t1] := by rw [← hA, ← hB1]
      have hkey : t1.team_key = teamKeyOf (pyStrip (pyStr (getCell t?))) := by
        rw [← hB1]
      have hfind1 : s1.teams.find?
          (fun x => x.team_key == teamKeyOf (pyStrip (pyStr (getCell t?))))
            = some t1 := by
        rw [hs1]
        simp [List.find?_append, hfind, hkey]
      have hstab := goct_team_found s1 t? t1 h1 h2 hfind1
      constructor
      · simp only [teamResolveN, hP,
          teamResolveN_fixed s1 t? (some t1) hstab n, List.replicate_succ]
      · simp only [hP, hs1, List.countP_append, h0, List.countP_cons, hkey]
        simp

/-- C2: resolving a circuit, driver, or team N ≥ 1 times with the same
derived natural key, starting from a store holding no row for that key,
leaves exactly one stored row for the key, and all N calls return the
same row (the whole iterated run returns the post-first-call store and N
copies of the first call's row — so later calls neither duplicate nor
update it). -/
theorem C2_resolution_idempotent_dedup :
    (∀ (s : Store) (e : Event),
      s.circuits.countP (fun c => c.circuit_key == circuitKeyOf e.eventName) = 0 →
      ∀ n : Nat,
        circuitResolveN (n + 1) s e
          = ((get_or_create_circuit s e).1,
             List.replicate (n + 1) (get_or_create_circuit s e).2)
        ∧ (get_or_create_circuit s e).1.circuits.countP
            (fun c => c.circuit_key == circuitKeyOf e.eventName) = 1)
    ∧ (∀ (s : Store) (a : PCell) (info : ResultRow),
      isna a = false → pyTruthy a = true →
      s.drivers.countP (fun d => d.code == pyStrip (pyStr a)) = 0 →
      ∀ n : Nat,
        driverResolveN (n + 1) s a (some info)
          = ((get_or_create_driver s a (some info)).1,
             List.replicate (n + 1) (get_or_create_driver s a (some info)).2)
        ∧ (get_or_create_driver s a (some info)).1.drivers.countP
            (fun d => d.code == pyStrip (pyStr a)) = 1)
    ∧ (∀ (s : Store) (t? : Option PCell),
      isna (getCell t?) = false → pyTruthy (getCell t?) = true →
      s.teams.countP
          (fun tm => tm.team_key == teamKeyOf (pyStrip (pyStr (getCell t?)))) = 0 →
      ∀ n : Nat,
        teamResolveN (n + 1) s t?
          = ((get_or_create_team s t?).1,
             List.replicate (n + 1) (get_or_create_team s t?).2)
        ∧ (get_or_create_team s t?).1.teams.countP
            (fun tm => tm.team_key == teamKeyOf (pyStrip (pyStr (getCell t?)))) = 1) :=
  ⟨fun s e h0 n => circuit_resolveN_spec s e h0 n,
   fun s a info h1 h2 h0 n => driver_resolveN_spec s a info h1 h2 h0 n,
   fun s t? h1 h2 h0 n => team_resolveN_spec s t? h1 h2 h0 n⟩

def eventFix : Event :=
  { eventName := .str "Monaco Grand Prix", location := some (.str "Monaco"),
    country := some (.str "Monaco"), roundNumber := .int 8,
    eventDate := .nan }

theorem C2_resolution_idempotent_dedup_witness :
    (circuitResolveN 2 Store.empty eventFix
        = ((get_or_create_circuit Store.empty eventFix).1,
           List.replicate 2 (get_or_create_circuit Store.empty eventFix).2)
      ∧ (get_or_create_circuit Store.empty eventFix).1.circuits.countP
          (fun c => c.circuit_key == circuitKeyOf eventFix.eventName) = 1)
    ∧ (driverResolveN 2 Store.empty (.str "VER") (some rowNaN)
        = ((get_or_create_driver Store.empty (.str "VER") (some rowNaN)).1,
           List.replicate 2
             (get_or_create_driver Store.empty (.str "VER") (some rowNaN)).2)
      ∧ (get_or_create_driver Store.empty (.str "VER") (some rowNaN)).1.drivers.countP
          (fun d => d.code == pyStrip (pyStr (.str "VER"))) = 1)
    ∧ (teamResolveN 2 Store.empty (some (.str "Red Bull Racing"))
        = ((get_or_create_team Store.empty (some (.str "Red Bull Racing"))).1,
           List.replicate 2
             (get_or_create_team Store.empty (some (.str "Red Bull Racing"))).2)
      ∧ (get_or_create_team Store.empty (some (.str "Red Bull Racing"))).1.teams.countP
          (fun tm => tm.team_key
            == teamKeyOf (pyStrip (pyStr (getCell (some (.str "Red Bull Racing")))))) = 1) :=
  ⟨C2_resolution_idempotent_dedup.1 Store.empty eventFix rfl 1,
   C2_resolution_idempotent_dedup.2.1 Store.empty (.str "VER") rowNaN
     (by decide) (by decide) rfl 1,
   C2_resolution_idempotent_dedup.2.2 Store.empty (some (.str "Red Bull Racing"))
     (by decide) (by decide) rfl 1⟩

/-! ## C3 -/

theorem findDriverByCell_mem (s : Store) (c : PCell) (d : DriverRow)
    (h : findDriverByCell s c = some d) : d ∈ s.drivers := by
  unfold findDriverByCell at h
  cases c <;> try cases h
  case str a => exact List.mem_of_find?_eq_some h

theorem qualiRowsOf_driver_ref (s : Store) (race : RaceRow) :
    ∀ (rows : List ResultRow) (n : Nat) (new : List QualifyingRow),
      qualiRowsOf s race rows n = .ok new →
      ∀ r ∈ new, ∃ d ∈ s.drivers, r.driver_id = d.id := by
  intro rows
  induction rows with
  | nil =>
    intro n new h r hr
    unfold qualiRowsOf at h
    injection h with h
    rw [← h] at hr
    cases hr
  | cons row rest ih =>
    intro n new h r hr
    unfold qualiRowsOf at h
    cases hf : findDriverByCell s row.abbreviation with
    | none => rw [hf] at h; exact ih n new h r hr
    | some d =>
      rw [hf] at h
      cases hpos : optIntField row.position with
      | error e => rw [hpos] at h; cases h
      | ok pos =>
        rw [hpos] at h
        cases hrest : qualiRowsOf s race rest (n + 1) with
        | error e => rw [hrest] at h; cases h
        | ok es =>
          rw [hrest] at h
          injection h with h
          rw [← h] at hr
          cases hr with
          | head => exact ⟨d, findDriverByCell_mem s row.abbreviation d hf, rfl⟩
          | tail _ htail => exact ih (n + 1) es hrest r htail

theorem mkRaceResultRow_driver_ref (s : Store) (race : RaceRow) (n : Nat)
    (row : ResultRow) (rr : RaceResultRow)
    (h : mkRaceResultRow s race n row = .ok (some rr)) :
    ∃ d ∈ s.drivers, rr.driver_id = d.id := by
  unfold mkRaceResultRow at h
  cases hf : findDriverByCell s row.abbreviation with
  | none => rw [hf] at h; cases h
  | some d =>
    rw [hf] at h
    cases hg : optIntField row.gridPosition with
    | error e => rw [hg] at h; cases h
    | ok gp =>
      rw [hg] at h
      cases hp : optIntField row.position with
      | error e => rw [hp] at h; cases h
      | ok fp =>
        rw [hp] at h
        cases hq : (if isna row.points then .ok (0 : Rat)
            else pyFloat row.points : Except Unit Rat) with
        | error e => rw [hq] at h; cases h
        | ok pts =>
          rw [hq] at h
          injection h with h'
          injection h' with h''
          exact ⟨d, findDriverByCell_mem s row.abbreviation d hf, by rw [← h'']⟩

theorem raceResultRowsOf_driver_ref (s : Store) (race : RaceRow) :
    ∀ (rows : List ResultRow) (n : Nat) (new : List RaceResultRow),
      raceResultRowsOf s race rows n = .ok new →
      ∀ r ∈ new, ∃ d ∈ s.drivers, r.driver_id = d.id := by
  intro rows
  induction rows with
  | nil =>
    intro n new h r hr
    unfold raceResultRowsOf at h
    injection h with h
    rw [← h] at hr
    cases hr
  | cons row rest ih =>
    intro n new h r hr
    unfold raceResultRowsOf at h
    cases hmk : mkRaceResultRow s race n row with
    | error e => rw [hmk] at h; cases h
    | ok rr? =>
      rw [hmk] at h
      cases rr? with
      | none => exact ih n new h r hr
      | some rr =>
        cases hrest : raceResultRowsOf s race rest (n + 1) with
        | error e => rw [hrest] at h; cases h
        | ok es =>
          rw [hrest] at h
          injection h with h
          rw [← h] at hr
          cases hr with
          | head => exact mkRaceResultRow_driver_ref s race n row _ hmk
          | tail _ htail => exact ih (n + 1) es hrest r htail

theorem lapEntryOf_driver (race : RaceRow) (d : DriverRow) (n : Nat)
    (lap : LapRow) (e : LapTimeRow)
    (h : lapEntryOf race d n lap = .ok e) : e.driver_id = d.id := by
  unfold lapEntryOf at h
  cases hln : optIntField lap.lapNumber with
  | error er => rw [hln] at h; cases h
  | ok ln =>
    rw [hln] at h
    cases htl : optIntOfGet lap.tyreLife with
    | error er => rw [htl] at h; cases h
    | ok tl =>
      rw [htl] at h
      injection h with h
      rw [← h]

theorem lapRowsForDriver_driver (race : RaceRow) (d : DriverRow) :
    ∀ (laps : List LapRow) (n : Nat) (es : List LapTimeRow),
      lapRowsForDriver race d laps n = .ok es →
      ∀ e ∈ es, e.driver_id = d.id := by
  intro laps
  induction laps with
  | nil =>
    intro n es h e he
    unfold lapRowsForDriver at h
    injection h with h
    rw [← h] at he
    cases he
  | cons lap rest ih =>
    intro n es h e he
    unfold lapRowsForDriver at h
    cases h1 : lapEntryOf race d n lap with
    | error er => rw [h1] at h; cases h
    | ok e1 =>
      rw [h1] at h
      cases h2 : lapRowsForDriver race d rest (n + 1) with
      | error er => rw [h2] at h; cases h
      | ok es1 =>
        rw [h2] at h
        injection h with h
        rw [← h] at he
        cases he with
        | head => exact lapEntryOf_driver race d n lap _ h1
        | tail _ ht => exact ih (n + 1) es1 h2 e ht

theorem lapRowsOf_driver_ref (s : Store) (race : RaceRow) (allLaps : List LapRow) :
    ∀ (abbrs : List PCell) (n : Nat) (new : List LapTimeRow),
      lapRowsOf s race allLaps abbrs n = .ok new →
      ∀ r ∈ new, ∃ d ∈ s.drivers, r.driver_id = d.id := by
  intro abbrs
  induction abbrs with
  | nil =>
    intro n new h r hr
    unfold lapRowsOf at h
    injection h with h
    rw [← h] at hr
    cases hr
  | cons a rest ih =>
    intro n new h r hr
    unfold lapRowsOf at h
    cases hf : findDriverByCell s a with
    | none => simp only [hf] at h; exact ih n new h r hr
    | some d =>
      simp only [hf] at h
      cases h1 : lapRowsForDriver race d (pickDriver allLaps a) n with
      | error er => simp only [h1] at h; cases h
      | ok es =>
        simp only [h1] at h
        cases h2 : lapRowsOf s race allLaps rest (n + es.length) with
        | error er => simp only [h2] at h; cases h
        | ok more =>
          simp only [h2] at h
          injection h with h
          rw [← h] at hr
          rcases List.mem_append.mp hr with hm | hm
          · exact ⟨d, findDriverByCell_mem s a d hf,
              lapRowsForDriver_driver race d (pickDriver allLaps a) n es h1 r hm⟩
          · exact ih (n + es.length) more h2 r hm

theorem pitRowsOf_driver_ref (s : Store) (race : RaceRow) :
    ∀ (laps : List LapRow) (n : Nat) (new : List PitStopRow),
      pitRowsOf s race laps n = .ok new →
      ∀ r ∈ new, ∃ d ∈ s.drivers, r.driver_id = d.id := by
  intro laps
  induction laps with
  | nil =>
    intro n new h r hr
    unfold pitRowsOf at h
    injection h with h
    rw [← h] at hr
    cases hr
  | cons lap rest ih =>
    intro n new h r hr
    unfold pitRowsOf at h
    cases hf : s.drivers.find? (fun d => d.code == lap.driver) with
    | none => simp only [hf] at h; exact ih n new h r hr
    | some d =>
      simp only [hf] at h
      cases hln : optIntField lap.lapNumber with
      | error er => simp only [hln] at h; cases h
      | ok ln =>
        simp only [hln] at h
        cases hrest : pitRowsOf s race rest (n + 1) with
        | error er => simp only [hrest] at h; cases h
        | ok es =>
          simp only [hrest] at h
          injection h with h
          rw [← h] at hr
          cases hr with
          | head => exact ⟨d, List.mem_of_find?_eq_some hf, rfl⟩
          | tail _ htail => exact ih (n + 1) es hrest r htail

theorem qualiRowsOf_skips_unresolved (s : Store) (race : RaceRow) :
    ∀ (rows : List ResultRow) (n : Nat) (new : List QualifyingRow),
      qualiRowsOf s race rows n = .ok new →
      new.length
        = rows.countP (fun row => (findDriverByCell s row.abbreviation).isSome) := by
  intro rows
  induction rows with
  | nil =>
    intro n new h
    unfold qualiRowsOf at h
    injection h with h
    simp [← h]
  | cons row rest ih =>
    intro n new h
    unfold qualiRowsOf at h
    cases hf : findDriverByCell s row.abbreviation with
    | none =>
      simp only [hf] at h
      simp [List.countP_cons, hf, ih n new h]
    | some d =>
      simp only [hf] at h
      cases hpos : optIntField row.position with
      | error e => simp only [hpos] at h; cases h
      | ok pos =>
        simp only [hpos] at h
        cases hrest : qualiRowsOf s race rest (n + 1) with
        | error e => simp only [hrest] at h; cases h
        | ok es =>
          simp only [hrest] at h
          injection h with h
          simp [← h, List.countP_cons, hf, ih (n + 1) es hrest]

theorem lapRowsForDriver_length (race : RaceRow) (d : DriverRow) :
    ∀ (laps : List LapRow) (n : Nat) (es : List LapTimeRow),
      lapRowsForDriver race d laps n = .ok es → es.length = laps.length := by
  intro laps
  induction laps with
  | nil =>
    intro n es h
    unfold lapRowsForDriver at h
    injection h with h
    simp [← h]
  | cons lap rest ih =>
    intro n es h
    unfold lapRowsForDriver at h
    cases h1 : lapEntryOf race d n lap with
    | error er => simp only [h1] at h; cases h
    | ok e1 =>
      simp only [h1] at h
      cases h2 : lapRowsForDriver race d rest (n + 1) with
      | error er => simp only [h2] at h; cases h
      | ok es1 =>
        simp only [h2] at h
        injection h with h
        simp [← h, ih (n + 1) es1 h2]

/-- The per-driver lap volume an abbreviation contributes: zero when the
driver does not resolve. -/
def lapContribution (s : Store) (allLaps : List LapRow) (a : PCell) : Nat :=
  match findDriverByCell s a with
  | none => 0
  | some _ => (pickDriver allLaps a).length

theorem lapRowsOf_skips_unresolved (s : Store) (race : RaceRow)
    (allLaps : List LapRow) :
    ∀ (abbrs : List PCell) (n : Nat) (new : List LapTimeRow),
      lapRowsOf s race allLaps abbrs n = .ok new →
      new.length = (abbrs.map (lapContribution s allLaps)).sum := by
  intro abbrs
  induction abbrs with
  | nil =>
    intro n new h
    unfold lapRowsOf at h
    injection h with h
    simp [← h]
  | cons a rest ih =>
    intro n new h
    unfold lapRowsOf at h
    cases hf : findDriverByCell s a with
    | none =>
      simp only [hf] at h
      simp [lapContribution, hf, ih n new h]
    | some d =>
      simp only [hf] at h
      cases h1 : lapRowsForDriver race d (pickDriver allLaps a) n with
      | error er => simp only [h1] at h; cases h
      | ok es =>
        simp only [h1] at h
        cases h2 : lapRowsOf s race allLaps rest (n + es.length) with
        | error er => simp only [h2] at h; cases h
        | ok more =>
          simp only [h2] at h
          injection h with h
          simp [← h, lapContribution, hf, ih (n + es.length) more h2,
            lapRowsForDriver_length race d (pickDriver allLaps a) n es h1]

/-- C3: every QualifyingResult/RaceResult/LapTime/PitStop row a
sub-loader writes references a Driver row present in the store at batch
start (rows already present aside); and a provider row whose driver
abbreviation does not resolve contributes no row at all: the batch
lengths count only resolvable rows (resolvable drivers' laps). -/
theorem C3_session_rows_reference_stored_drivers :
    (∀ (s : Store) (race : RaceRow) (rows : List ResultRow),
      ∀ r ∈ (load_qualifying_results s race rows).qualifying_results,
        r ∈ s.qualifying_results ∨ ∃ d ∈ s.drivers, r.driver_id = d.id)
    ∧ (∀ (s : Store) (race : RaceRow) (rows : List ResultRow),
      ∀ r ∈ (load_race_results s race rows).race_results,
        r ∈ s.race_results ∨ ∃ d ∈ s.drivers, r.driver_id = d.id)
    ∧ (∀ (s : Store) (race : RaceRow) (results : List ResultRow)
        (laps : List LapRow),
      ∀ r ∈ (load_lap_times_sample s race results laps).lap_times,
        r ∈ s.lap_times ∨ ∃ d ∈ s.drivers, r.driver_id = d.id)
    ∧ (∀ (s : Store) (race : RaceRow) (laps : List LapRow),
      ∀ r ∈ (load_pit_stops s race laps).pit_stops,
        r ∈ s.pit_stops ∨ ∃ d ∈ s.drivers, r.driver_id = d.id)
    ∧ (∀ (s : Store) (race : RaceRow) (rows : List ResultRow) (n : Nat)
        (new : List QualifyingRow),
      qualiRowsOf s race rows n = .ok new →
      new.length
        = rows.countP (fun row => (findDriverByCell s row.abbreviation).isSome))
    ∧ (∀ (s : Store) (race : RaceRow) (allLaps : List LapRow)
        (abbrs : List PCell) (n : Nat) (new : List LapTimeRow),
      lapRowsOf s race allLaps abbrs n = .ok new →
      new.length = (abbrs.map (lapContribution s allLaps)).sum) := by
  refine ⟨?_, ?_, ?_, ?_, ?_, ?_⟩
  · intro s race rows r hr
    unfold load_qualifying_results at hr
    cases hq : qualiRowsOf s race rows (s.qualifying_results.length + 1) with
    | error e => simp only [hq] at hr; exact .inl hr
    | ok new =>
      simp only [hq] at hr
      rcases List.mem_append.mp hr with h | h
      · exact .inl h
      · exact .inr (qualiRowsOf_driver_ref s race rows _ new hq r h)
  · intro s race rows r hr
    unfold load_race_results at hr
    cases hq : raceResultRowsOf s race rows (s.race_results.length + 1) with
    | error e => simp only [hq] at hr; exact .inl hr
    | ok new =>
      simp only [hq] at hr
      rcases List.mem_append.mp hr with h | h
      · exact .inl h
      · exact .inr (raceResultRowsOf_driver_ref s race rows _ new hq r h)
  · intro s race results laps r hr
    unfold load_lap_times_sample at hr
    cases hq : lapRowsOf s race laps (results.map (fun x => x.abbreviation))
        (s.lap_times.length + 1) with
    | error e => simp only [hq] at hr; exact .inl hr
    | ok new =>
      simp only [hq] at hr
      rcases List.mem_append.mp hr with h | h
      · exact .inl h
      · exact .inr (lapRowsOf_driver_ref s race laps _ _ new hq r h)
  · intro s race laps r hr
    unfold load_pit_stops at hr
    cases hq : pitRowsOf s race (laps.filter (fun l => !isna l.pitOutTime))
        (s.pit_stops.length + 1) with
    | error e => simp only [hq] at hr; exact .inl hr
    | ok new =>
      simp only [hq] at hr
      rcases List.mem_append.mp hr with h | h
      · exact .inl h
      · exact .inr (pitRowsOf_driver_ref s race _ _ new hq r h)
  · intro s race rows n new h
    exact qualiRowsOf_skips_unresolved s race rows n new h
  · intro s race allLaps abbrs n new h
    exact lapRowsOf_skips_unresolved s race allLaps abbrs n new h

def qrowFix : QualifyingRow :=
  { id := 1, race_id := 1, driver_id := 1, position := none,
    q1_time := none, q2_time := none, q3_time := none }

def lapFix : LapRow :=
  { driver := "VER", lapNumber := .int 1, lapTime := none, compound := none,
    tyreLife := none, pitOutTime := .nan }

def ltFix : LapTimeRow :=
  { id := 1, race_id := 1, driver_id := 1, lap_number := some 1,
    lap_time := none, compound := none, tyre_life := none }

def pitLapFix : LapRow :=
  { driver := "VER", lapNumber := .int 2, lapTime := none, compound := none,
    tyreLife := none, pitOutTime := .td 3 }

def psFix : PitStopRow :=
  { id := 1, race_id := 1, driver_id := 1, lap_number := some 2,
    compound_after := none }

theorem C3_session_rows_reference_stored_drivers_witness :
    (qrowFix ∈ (load_qualifying_results storeFix raceFix [rowNaN]).qualifying_results
      ∧ (qrowFix ∈ storeFix.qualifying_results
         ∨ ∃ d ∈ storeFix.drivers, qrowFix.driver_id = d.id))
    ∧ (rrFix ∈ (load_race_results storeFix raceFix [rowNaN]).race_results
      ∧ (rrFix ∈ storeFix.race_results
         ∨ ∃ d ∈ storeFix.drivers, rrFix.driver_id = d.id))
    ∧ (ltFix ∈ (load_lap_times_sample storeFix raceFix [rowNaN] [lapFix]).lap_times
      ∧ (ltFix ∈ storeFix.lap_times
         ∨ ∃ d ∈ storeFix.drivers, ltFix.driver_id = d.id))
    ∧ (psFix ∈ (load_pit_stops storeFix raceFix [pitLapFix]).pit_stops
      ∧ (psFix ∈ storeFix.pit_stops
         ∨ ∃ d ∈ storeFix.drivers, psFix.driver_id = d.id))
    ∧ (qualiRowsOf storeFix raceFix [rowNaN] 1 = .ok [qrowFix]
      ∧ ([qrowFix] : List QualifyingRow).length
          = [rowNaN].countP
              (fun row => (findDriverByCell storeFix row.abbreviation).isSome))
    ∧ (lapRowsOf storeFix raceFix [lapFix] [PCell.str "VER"] 1 = .ok [ltFix]
      ∧ ([ltFix] : List LapTimeRow).length
          = ([PCell.str "VER"].map (lapContribution storeFix [lapFix])).sum) := by
  have h1 : qrowFix ∈ (load_qualifying_results storeFix raceFix
      [rowNaN]).qualifying_results := by decide
  have h2 : rrFix ∈ (load_race_results storeFix raceFix [rowNaN]).race_results := by
    decide
  have h3 : ltFix ∈ (load_lap_times_sample storeFix raceFix [rowNaN]
      [lapFix]).lap_times := by decide
  have h4 : psFix ∈ (load_pit_stops storeFix raceFix [pitLapFix]).pit_stops := by
    decide
  have h5 : qualiRowsOf storeFix raceFix [rowNaN] 1 = .ok [qrowFix] := by rfl
  have h6 : lapRowsOf storeFix raceFix [lapFix] [PCell.str "VER"] 1
      = .ok [ltFix] := by rfl
  exact ⟨⟨h1, C3_session_rows_reference_stored_drivers.1 storeFix raceFix
            [rowNaN] qrowFix h1⟩,
    ⟨h2, C3_session_rows_reference_stored_drivers.2.1 storeFix raceFix
            [rowNaN] rrFix h2⟩,
    ⟨h3, C3_session_rows_reference_stored_drivers.2.2.1 storeFix raceFix
            [rowNaN] [lapFix] ltFix h3⟩,
    ⟨h4, C3_session_rows_reference_stored_drivers.2.2.2.1 storeFix raceFix
            [pitLapFix] psFix h4⟩,
    ⟨h5, C3_session_rows_reference_stored_drivers.2.2.2.2.1 storeFix raceFix
            [rowNaN] 1 [qrowFix] h5⟩,
    ⟨h6, C3_session_rows_reference_stored_drivers.2.2.2.2.2 storeFix raceFix
            [lapFix] [PCell.str "VER"] 1 [ltFix] h6⟩⟩

/-! ## C4 -/

/-- C4: each of the five sub-loaders is total (it cannot raise to its
caller, being a plain function into `Store`), and on any exception
during its batch it rolls back its own partial writes: the store — its
own target table included — is returned exactly as it was, so rows
committed earlier in the weekend by other sub-loaders all remain.  The
weather loader moreover never touches the qualifying, race-result, or
lap-time tables, failing or not. -/
theorem C4_subloader_failure_rolls_back :
    (∀ (s : Store) (race : RaceRow) (rows : List ResultRow),
      qualiRowsOf s race rows (s.qualifying_results.length + 1) = .error () →
      load_qualifying_results s race rows = s)
    ∧ (∀ (s : Store) (race : RaceRow) (rows : List ResultRow),
      raceResultRowsOf s race rows (s.race_results.length + 1) = .error () →
      load_race_results s race rows = s)
    ∧ (∀ (s : Store) (race : RaceRow) (results : List ResultRow)
        (laps : List LapRow),
      lapRowsOf s race laps (results.map (fun x => x.abbreviation))
          (s.lap_times.length + 1) = .error () →
      load_lap_times_sample s race results laps = s)
    ∧ (∀ (s : Store) (race : RaceRow) (laps : List LapRow),
      pitRowsOf s race (laps.filter (fun l => !isna l.pitOutTime))
          (s.pit_stops.length + 1) = .error () →
      load_pit_stops s race laps = s)
    ∧ (∀ (s : Store) (race : RaceRow) (w : List WeatherRow),
      weatherRowsOf race (sampleEvery10 w) (s.weather.length + 1) = .error () →
      load_weather_data s race (some w) = s)
    ∧ (∀ (s : Store) (race : RaceRow) (w? : Option (List WeatherRow)),
      (load_weather_data s race w?).qualifying_results = s.qualifying_results
      ∧ (load_weather_data s race w?).race_results = s.race_results
      ∧ (load_weather_data s race w?).lap_times = s.lap_times) := by
  refine ⟨?_, ?_, ?_, ?_, ?_, ?_⟩
  · intro s race rows h
    unfold load_qualifying_results
    simp only [h]
  · intro s race rows h
    unfold load_race_results
    simp only [h]
  · intro s race results laps h
    unfold load_lap_times_sample
    simp only [h]
  · intro s race laps h
    unfold load_pit_stops
    simp only [h]
  · intro s race w h
    unfold load_weather_data
    simp only [h]
  · intro s race w?
    unfold load_weather_data
    cases w? with
    | none => exact ⟨rfl, rfl, rfl⟩
    | some w =>
      cases hw : weatherRowsOf race (sampleEvery10 w) (s.weather.length + 1) with
      | error e => simp [hw]
      | ok new => simp [hw]

/-- A results row whose `Position` cell cannot be converted by `int()`:
the driver resolves, so the qualifying/race-result batch reaches the
conversion and raises. -/
def rowBad : ResultRow :=
  { abbreviation := .str "VER", driverNumber := none, firstName := none,
    lastName := none, broadcastName := none, countryCode := none,
    teamName := none, status := none, position := .str "DNF?",
    gridPosition := .nan, points := .nan, q1 := none, q2 := none, q3 := none }

/-- A lap row whose `LapNumber` cell cannot be converted by `int()`. -/
def lapBad : LapRow :=
  { driver := "VER", lapNumber := .str "X", lapTime := none, compound := none,
    tyreLife := none, pitOutTime := .td 1 }

theorem C4_subloader_failure_rolls_back_witness :
    load_qualifying_results storeFix raceFix [rowBad] = storeFix
    ∧ load_race_results storeFix raceFix [rowBad] = storeFix
    ∧ load_lap_times_sample storeFix raceFix [rowBad] [lapBad] = storeFix
    ∧ load_pit_stops storeFix raceFix [lapBad] = storeFix
    ∧ load_weather_data storeFix raceFix (some [badWeather]) = storeFix
    ∧ (load_weather_data storeFix raceFix
          (some [badWeather])).qualifying_results = storeFix.qualifying_results :=
  ⟨C4_subloader_failure_rolls_back.1 storeFix raceFix [rowBad] rfl,
   C4_subloader_failure_rolls_back.2.1 storeFix raceFix [rowBad] rfl,
   C4_subloader_failure_rolls_back.2.2.1 storeFix raceFix [rowBad] [lapBad] rfl,
   C4_subloader_failure_rolls_back.2.2.2.1 storeFix raceFix [lapBad] rfl,
   C4_subloader_failure_rolls_back.2.2.2.2.1 storeFix raceFix [badWeather] rfl,
   (C4_subloader_failure_rolls_back.2.2.2.2.2 storeFix raceFix
      (some [badWeather])).1⟩

/-! ## C6 -/

/-- A results row whose Q1 cell is a NEGATIVE timedelta (-60 s). -/
def rowNegQ1 : ResultRow :=
  { abbreviation := .str "VER", driverNumber := none, firstName := none,
    lastName := none, broadcastName := none, countryCode := none,
    teamName := none, status := none, position := .int 1,
    gridPosition := .nan, points := .nan, q1 := some (.td (-60)),
    q2 := none, q3 := none }

def qrowNeg : QualifyingRow :=
  { id := 1, race_id := 1, driver_id := 1, position := some 1,
    q1_time := some (-60), q2_time := none, q3_time := none }

/-- C6 (counterexample): the claim says a stored time value is never a
negative number for any provider input.  But `total_seconds()` of a
negative timedelta is negative and the pipeline stores it unclamped: a
qualifying batch with `Q1 = timedelta(-60 s)` commits a row whose
`q1_time` is `-60 < 0`. -/
theorem C6_negative_duration_persisted_counterexample :
    ∃ r ∈ (load_qualifying_results storeFix raceFix [rowNegQ1]).qualifying_results,
      ∃ q : Rat, r.q1_time = some q ∧ q < 0 :=
  ⟨qrowNeg, by decide, -60, rfl, by decide⟩

/-- C6 (amended): every stored Q1/Q2/Q3 time is exactly
`convert_timedelta_to_seconds` of the provider cell, and the normalizer
returns `some q` only when its input is a duration of exactly `q`
seconds — so every persisted time value is null or the provider
duration's float second count (non-negative exactly when the duration
is), and no raw duration object is ever persisted. -/
theorem C6_times_are_normalized_seconds_amended :
    (∀ (c : PCell) (q : Rat),
      convert_timedelta_to_seconds c = some q → c = .td q)
    ∧ (∀ (s : Store) (race : RaceRow) (rows : List ResultRow) (n : Nat)
        (new : List QualifyingRow),
      qualiRowsOf s race rows n = .ok new →
      ∀ r ∈ new, ∃ row ∈ rows,
        r.q1_time = convert_timedelta_to_seconds (getCell row.q1)
        ∧ r.q2_time = convert_timedelta_to_seconds (getCell row.q2)
        ∧ r.q3_time = convert_timedelta_to_seconds (getCell row.q3)) := by
  constructor
  · intro c q h
    cases c <;> simp_all [convert_timedelta_to_seconds, total_seconds, isna]
  · intro s race rows
    induction rows with
    | nil =>
      intro n new h r hr
      unfold qualiRowsOf at h
      injection h with h
      rw [← h] at hr
      cases hr
    | cons row rest ih =>
      intro n new h r hr
      unfold qualiRowsOf at h
      cases hf : findDriverByCell s row.abbreviation with
      | none =>
        simp only [hf] at h
        obtain ⟨row', hm, hq⟩ := ih n new h r hr
        exact ⟨row', List.mem_cons_of_mem row hm, hq⟩
      | some d =>
        simp only [hf] at h
        cases hpos : optIntField row.position with
        | error e => simp only [hpos] at h; cases h
        | ok pos =>
          simp only [hpos] at h
          cases hrest : qualiRowsOf s race rest (n + 1) with
          | error e => simp only [hrest] at h; cases h
          | ok es =>
            simp only [hrest] at h
            injection h with h
            rw [← h] at hr
            cases hr with
            | head => exact ⟨row, List.mem_cons_self row rest, rfl, rfl, rfl⟩
            | tail _ htail =>
              obtain ⟨row', hm, hq⟩ := ih (n + 1) es hrest r htail
              exact ⟨row', List.mem_cons_of_mem row hm, hq⟩

theorem C6_times_are_normalized_seconds_amended_witness :
    PCell.td 5 = PCell.td 5
    ∧ (qualiRowsOf storeFix raceFix [rowNegQ1] 1 = .ok [qrowNeg]
      ∧ ∃ row ∈ [rowNegQ1],
          qrowNeg.q1_time = convert_timedelta_to_seconds (getCell row.q1)
          ∧ qrowNeg.q2_time = convert_timedelta_to_seconds (getCell row.q2)
          ∧ qrowNeg.q3_time = convert_timedelta_to_seconds (getCell row.q3)) := by
  have h0 : convert_timedelta_to_seconds (.td 5) = some 5 := rfl
  have h1 : qualiRowsOf storeFix raceFix [rowNegQ1] 1 = .ok [qrowNeg] := rfl
  exact ⟨C6_times_are_normalized_seconds_amended.1 (.td 5) 5 h0,
    h1, C6_times_are_normalized_seconds_amended.2 storeFix raceFix [rowNegQ1]
      1 [qrowNeg] h1 qrowNeg (List.mem_singleton.mpr rfl)⟩

/-! ## C1 -/

/-- After any circuit resolution, the derived key is findable and the
lookup returns exactly the row the resolution returned. -/
theorem goc_circuit_result_found (s : Store) (e : Event) :
    (get_or_create_circuit s e).1.circuits.find?
        (fun x => x.circuit_key == circuitKeyOf e.eventName)
      = some (get_or_create_circuit s e).2 := by
  unfold get_or_create_circuit
  cases hf : s.circuits.find?
      (fun c => c.circuit_key == circuitKeyOf e.eventName) with
  | some c => simp [hf]
  | none => simp [hf, List.find?_append]

/-- Resolving the circuit a second time in the store the first call
produced is a no-op returning the same row. -/
theorem goc_circuit_idem (s : Store) (e : Event) :
    get_or_create_circuit (get_or_create_circuit s e).1 e
      = get_or_create_circuit s e := by
  have h := goc_circuit_result_found s e
  have h2 := goc_circuit_found (get_or_create_circuit s e).1 e
    (get_or_create_circuit s e).2 h
  rw [h2]

theorem gocd_fields (s : Store) (a : PCell) (i : Option ResultRow) :
    (get_or_create_driver s a i).1.circuits = s.circuits
    ∧ (get_or_create_driver s a i).1.races = s.races := by
  unfold get_or_create_driver
  dsimp only
  repeat' split
  all_goals exact ⟨rfl, rfl⟩

theorem goct_fields (s : Store) (t? : Option PCell) :
    (get_or_create_team s t?).1.circuits = s.circuits
    ∧ (get_or_create_team s t?).1.races = s.races := by
  unfold get_or_create_team
  dsimp only
  repeat' split
  all_goals exact ⟨rfl, rfl⟩

theorem resolveRoster_cons (s : Store) (row : ResultRow) (rest : List ResultRow) :
    resolveRoster s (row :: rest)
      = resolveRoster
          ((get_or_create_team
              (get_or_create_driver s row.abbreviation (some row)).1
              row.teamName).1)
          rest := rfl

theorem resolveRoster_fields :
    ∀ (rows : List ResultRow) (s : Store),
      (resolveRoster s rows).circuits = s.circuits
      ∧ (resolveRoster s rows).races = s.races := by
  intro rows
  induction rows with
  | nil => intro s; exact ⟨rfl, rfl⟩
  | cons row rest ih =>
    intro s
    rw [resolveRoster_cons]
    have h1 := gocd_fields s row.abbreviation (some row)
    have h2 := goct_fields
      (get_or_create_driver s row.abbreviation (some row)).1 row.teamName
    have hf := ih
      ((get_or_create_team
          (get_or_create_driver s row.abbreviation (some row)).1
          row.teamName).1)
    exact ⟨by rw [hf.1, h2.1, h1.1], by rw [hf.2, h2.2, h1.2]⟩

theorem load_quali_fields (s : Store) (race : RaceRow) (rows : List ResultRow) :
    (load_qualifying_results s race rows).circuits = s.circuits
    ∧ (load_qualifying_results s race rows).races = s.races := by
  unfold load_qualifying_results
  cases h : qualiRowsOf s race rows (s.qualifying_results.length + 1) <;>
    simp [h]

theorem load_rr_fields (s : Store) (race : RaceRow) (rows : List ResultRow) :
    (load_race_results s race rows).circuits = s.circuits
    ∧ (load_race_results s race rows).races = s.races := by
  unfold load_race_results
  cases h : raceResultRowsOf s race rows (s.race_results.length + 1) <;>
    simp [h]

theorem load_lt_fields (s : Store) (race : RaceRow) (results : List ResultRow)
    (laps : List LapRow) :
    (load_lap_times_sample s race results laps).circuits = s.circuits
    ∧ (load_lap_times_sample s race results laps).races = s.races := by
  unfold load_lap_times_sample
  cases h : lapRowsOf s race laps (results.map (fun r => r.abbreviation))
      (s.lap_times.length + 1) <;> simp [h]

theorem load_ps_fields (s : Store) (race : RaceRow) (laps : List LapRow) :
    (load_pit_stops s race laps).circuits = s.circuits
    ∧ (load_pit_stops s race laps).races = s.races := by
  unfold load_pit_stops
  cases h : pitRowsOf s race (laps.filter (fun l => !isna l.pitOutTime))
      (s.pit_stops.length + 1) <;> simp [h]

theorem load_w_fields (s : Store) (race : RaceRow)
    (w? : Option (List WeatherRow)) :
    (load_weather_data s race w?).circuits = s.circuits
    ∧ (load_weather_data s race w?).races = s.races := by
  unfold load_weather_data
  cases w? with
  | none => exact ⟨rfl, rfl⟩
  | some w =>
    cases h : weatherRowsOf race (sampleEvery10 w) (s.weather.length + 1) <;>
      simp [h]

theorem mkRaceEntry_ok (event : Event) (year : Int) (race_name : String)
    (cid nid : Nat) (r : RaceRow)
    (h : mkRaceEntry event year race_name cid nid = .ok r) :
    r.year = year ∧ r.race_name = race_name := by
  unfold mkRaceEntry at h
  cases h1 : pyInt event.roundNumber with
  | error e => rw [h1] at h; cases h
  | ok rnd =>
    rw [h1] at h
    cases h2 : (if isna event.eventDate then .ok none
        else
          match event.eventDate with
          | .dt n => .ok (some n)
          | _ => .error () : Except Unit (Option Int)) with
    | error e => rw [h2] at h; cases h
    | ok rdate =>
      rw [h2] at h
      injection h with h
      rw [← h]
      exact ⟨rfl, rfl⟩

theorem mkRaceEntry_error_all (event : Event) (year : Int) (race_name : String)
    (cid nid : Nat) (u : Unit)
    (h : mkRaceEntry event year race_name cid nid = .error u) :
    ∀ cid' nid' : Nat, mkRaceEntry event year race_name cid' nid' = .error u := by
  intro cid' nid'
  unfold mkRaceEntry at h ⊢
  cases h1 : pyInt event.roundNumber with
  | error e => simp only [h1] at h ⊢
  | ok rnd =>
    simp only [h1] at h ⊢
    cases h2 : (if isna event.eventDate then .ok none
        else
          match event.eventDate with
          | .dt n => .ok (some n)
          | _ => .error () : Except Unit (Option Int)) with
    | error e => simp only [h2] at h ⊢
    | ok rdate => simp only [h2] at h; cases h

theorem runSubLoaders_fields (race_entry : RaceRow) (d : WeekendData)
    (s2 : Store) :
    (runSubLoaders race_entry d s2).circuits = s2.circuits
    ∧ (runSubLoaders race_entry d s2).races = s2.races := by
  unfold runSubLoaders
  constructor
  · rw [(load_w_fields _ _ _).1, (load_ps_fields _ _ _).1,
      (load_lt_fields _ _ _ _).1, (load_rr_fields _ _ _).1,
      (load_quali_fields _ _ _).1, (resolveRoster_fields _ _).1]
  · rw [(load_w_fields _ _ _).2, (load_ps_fields _ _ _).2,
      (load_lt_fields _ _ _ _).2, (load_rr_fields _ _ _).2,
      (load_quali_fields _ _ _).2, (resolveRoster_fields _ _).2]

/-- C1 (amended): (a) when BOTH the `(year, race_name)` race row and the
event's circuit row (by derived key) already exist, `load_race_weekend`
is a no-op — the stored state after the call equals the state before it,
so every table's row count is unchanged; this covers in particular every
state produced by a successful prior run.  (When only the race row
exists, the call may still write the one missing circuit row before the
existence check fires — see the counterexample.)  (b) Unconditionally,
running the same weekend load twice yields exactly the stored state of
running it once (idempotence of the second run, hence identical row
counts). -/
theorem C1_weekend_skip_noop_and_idempotent :
    (∀ (year : Int) (race_name : String) (d : WeekendData) (s : Store)
        (event : Event),
      d.event? = some event →
      s.races.any (fun r => r.year == year && r.race_name == race_name) = true →
      (∃ c, s.circuits.find?
          (fun x => x.circuit_key == circuitKeyOf event.eventName) = some c) →
      load_race_weekend year race_name d s = s)
    ∧ (∀ (year : Int) (race_name : String) (d : WeekendData) (s : Store),
      load_race_weekend year race_name d (load_race_weekend year race_name d s)
        = load_race_weekend year race_name d s) := by
  constructor
  · rintro year race_name d s event hev hany ⟨c, hc⟩
    simp only [load_race_weekend, hev, goc_circuit_found s event c hc, hany,
      if_true]
  · intro year race_name d s
    cases hev : d.event? with
    | none => simp [load_race_weekend, hev]
    | some event =>
      cases hfc : get_or_create_circuit s event with
      | mk s1 c1 =>
        have hfound1 : s1.circuits.find?
            (fun x => x.circuit_key == circuitKeyOf event.eventName) = some c1 := by
          have h := goc_circuit_result_found s event
          rw [hfc] at h
          exact h
        have hidem : get_or_create_circuit s1 event = (s1, c1) :=
          goc_circuit_found s1 event c1 hfound1
        by_cases hany : s1.races.any
            (fun r => r.year == year && r.race_name == race_name) = true
        · have h1 : load_race_weekend year race_name d s = s1 := by
            simp only [load_race_weekend, hev, hfc, hany, if_true]
          rw [h1]
          simp only [load_race_weekend, hev, hidem, hany, if_true]
        · have hanyf : s1.races.any
              (fun r => r.year == year && r.race_name == race_name) = false :=
            Bool.not_eq_true _ ▸ eq_false_of_ne_true hany
          cases hload : d.loads_ok with
          | false =>
            have h1 : load_race_weekend year race_name d s = s1 := by
              simp [load_race_weekend, hev, hfc, hanyf, hload]
            rw [h1]
            simp [load_race_weekend, hev, hidem, hanyf, hload]
          | true =>
            cases hmk : mkRaceEntry event year race_name c1.id
                (s1.races.length + 1) with
            | error u =>
              have h1 : load_race_weekend year race_name d s = s1 := by
                simp [load_race_weekend, hev, hfc, hanyf, hload, hmk]
              rw [h1]
              simp [load_race_weekend, hev, hidem, hanyf, hload, hmk]
            | ok race_entry =>
              obtain ⟨hy, hn⟩ := mkRaceEntry_ok event year race_name c1.id
                (s1.races.length + 1) race_entry hmk
              have h1 : load_race_weekend year race_name d s
                  = runSubLoaders race_entry d
                      { s1 with races := s1.races ++ [race_entry] } := by
                simp [load_race_weekend, hev, hfc, hanyf, hload, hmk]
              have hFf := runSubLoaders_fields race_entry d
                { s1 with races := s1.races ++ [race_entry] }
              have hcf : (runSubLoaders race_entry d
                  { s1 with races := s1.races ++ [race_entry] }).circuits
                    = s1.circuits := hFf.1
              have hrf : (runSubLoaders race_entry d
                  { s1 with races := s1.races ++ [race_entry] }).races
                    = s1.races ++ [race_entry] := hFf.2
              have hmatch : (race_entry.year == year
                  && race_entry.race_name == race_name) = true := by
                rw [hy, hn]
                simp
              have hany2 : (runSubLoaders race_entry d
                  { s1 with races := s1.races ++ [race_entry] }).races.any
                    (fun r => r.year == year && r.race_name == race_name)
                      = true := by
                rw [hrf, List.any_append]
                simp [hmatch]
              have hfoundf : (runSubLoaders race_entry d
                  { s1 with races := s1.races ++ [race_entry] }).circuits.find?
                    (fun x => x.circuit_key == circuitKeyOf event.eventName)
                      = some c1 := by
                rw [hcf]
                exact hfound1
              rw [h1]
              simp only [load_race_weekend, hev,
                goc_circuit_found _ event c1 hfoundf, hany2, if_true]

/-- A store holding the Monaco race row but NO circuit rows. -/
def raceOnlyStore : Store := { Store.empty with races := [raceFix] }

/-- Provider data for the Monaco weekend (no session content needed: the
run stops at the existence check). -/
def weekendFix : WeekendData :=
  { event? := some eventFix, loads_ok := true, qualiResults := [],
    raceResults := [], raceLaps := [], weather? := none }

/-- C1 (counterexample): the claim says that whenever a Race row with
the given `(year, race_name)` exists, the call writes zero additional
rows to ANY table.  But circuit resolution runs BEFORE the existence
check: from a state holding the race but not the circuit, the call
commits one new Circuit row (total circuit count 0 → 1) and only then
skips. -/
theorem C1_circuit_written_despite_existing_race_counterexample :
    (∃ r ∈ raceOnlyStore.races,
      r.year = 2024 ∧ r.race_name = "Monaco Grand Prix")
    ∧ (load_race_weekend 2024 "Monaco Grand Prix" weekendFix
        raceOnlyStore).circuits.length = 1
    ∧ raceOnlyStore.circuits.length = 0 := by
  refine ⟨⟨raceFix, ?_, rfl, rfl⟩, ?_, rfl⟩
  · decide
  · rfl

def circuitFix : CircuitRow :=
  { id := 1, circuit_key := "monaco_grand_prix", name := "Monaco Grand Prix",
    location := "Monaco", country := "Monaco" }

/-- A store holding both the Monaco race row and its circuit row, as any
successful first run leaves behind. -/
def fullWeekendStore : Store :=
  { Store.empty with circuits := [circuitFix], races := [raceFix] }

theorem C1_weekend_skip_noop_and_idempotent_witness :
    load_race_weekend 2024 "Monaco Grand Prix" weekendFix fullWeekendStore
      = fullWeekendStore
    ∧ load_race_weekend 2024 "Monaco Grand Prix" weekendFix
        (load_race_weekend 2024 "Monaco Grand Prix" weekendFix raceOnlyStore)
      = load_race_weekend 2024 "Monaco Grand Prix" weekendFix raceOnlyStore :=
  ⟨C1_weekend_skip_noop_and_idempotent.1 2024 "Monaco Grand Prix" weekendFix
      fullWeekendStore eventFix rfl (by decide) ⟨circuitFix, by decide⟩,
   C1_weekend_skip_noop_and_idempotent.2 2024 "Monaco Grand Prix" weekendFix
      raceOnlyStore⟩
